import Mathlib

/-!
Verification of the endpoint/key rotation and failover engine:
a shallow embedding of `src/services/openrouter_api_manager.py`
(`OpenRouterAPIManager`) and `src/services/enhanced_api_rotation_manager.py`
(`EnhancedAPIRotationManager`).  Time is modelled as `Nat` seconds;
`datetime.now() + timedelta(...)` becomes `now + duration`.
-/

namespace RotationSpec

/-! ### Error classification (from `OpenRouterAPIManager._handle_api_error`) -/

/-- Scan for a contiguous sub-sequence, used to model Python's `in` on strings. -/
def hasSubAux (pat : List Char) : List Char → Bool
  | [] => pat.isEmpty
  | c :: rest => pat.isPrefixOf (c :: rest) || hasSubAux pat rest

/-- Models Python `pat in s` on the lowercased character sequence of `s`. -/
def strContainsTok (s : List Char) (pat : String) : Bool :=
  hasSubAux pat.toList s

/-- The three error classes distinguished by `_handle_api_error`. -/
inductive ErrClass where
  | payment
  | rateLimit
  | other
deriving DecidableEq

/-- Models the branch conditions of `_handle_api_error` applied to
`str(error).lower()`. -/
def classifyError (msg : String) : ErrClass :=
  let m := msg.toList.map Char.toLower
  if strContainsTok m ("402") || strContainsTok m ("credit") || strContainsTok m ("payment") then
    .payment
  else if strContainsTok m ("429") || strContainsTok m ("rate limit") then
    .rateLimit
  else
    .other

/-- Cooldown durations in seconds: 1 hour for payment errors, 5 minutes for
rate limits, 30 seconds otherwise (`_handle_api_error`). -/
def cooldownDuration : ErrClass → Nat
  | .payment => 3600
  | .rateLimit => 300
  | .other => 30

/-! ### OpenRouterAPIManager state -/

/-- One entry of `key_usage_stats`. -/
structure KeyStats where
  requests : Nat
  errors : Nat
  last_used : Option Nat
  credits_exhausted : Bool
  rate_limited : Bool
deriving DecidableEq

/-- The mutable state of `OpenRouterAPIManager`: the ordered key list, the
rotation cursor, per-key stats and the cooldown table (`None` = absent). -/
structure ORState where
  api_keys : List String
  current_key_index : Nat
  key_usage_stats : String → KeyStats
  key_cooldowns : String → Option Nat

def nKeys (s : ORState) : Nat := s.api_keys.length

/-- Models `self.api_keys[i]` (indices used by the code are always in range). -/
def keyAt (s : ORState) (i : Nat) : String := s.api_keys.getD i ("")

/-- Models `_rotate_to_next_key`. -/
def rotateKey (s : ORState) : ORState :=
  { s with current_key_index := (s.current_key_index + 1) % nKeys s }

/-- Removing a key from the cooldown table and resetting its two exclusion
flags (lines 82-84 of `_get_next_available_key`). -/
def clearCooldown (s : ORState) (key : String) : ORState :=
  { s with
    key_cooldowns := fun k => if k = key then none else s.key_cooldowns k,
    key_usage_stats := fun k =>
      if k = key then
        { s.key_usage_stats key with credits_exhausted := false, rate_limited := false }
      else s.key_usage_stats k }

/-- Result of `_get_next_available_key`: a returned key plus the mutated
state, or the raised "all keys exhausted" exception. -/
inductive SelectResult where
  | ok (key : String) (s : ORState)
  | exhausted (s : ORState)

/-- Models `min(self.api_keys, key=lambda k: ...errors)`: first key with minimal
error count. -/
def minErrorsKey (s : ORState) : Option String :=
  match s.api_keys with
  | [] => none
  | k :: ks =>
      some (ks.foldl
        (fun best k2 =>
          if (s.key_usage_stats k2).errors < (s.key_usage_stats best).errors then k2 else best)
        k)

/-- Line 106-109 of `_get_next_available_key`: the extreme fallback returning
the key with the fewest errors once the while loop exits. -/
def bestKeyResult (s : ORState) : SelectResult :=
  match minErrorsKey s with
  | some k => .ok k s
  | none => .exhausted s

/-- Lines 98-104: the secondary scan run when all keys were found to have
problems; returns the first key not in cooldown and not credits-exhausted, or
raises. -/
def fallbackScan (s : ORState) : SelectResult :=
  match s.api_keys.find?
      (fun k => (s.key_cooldowns k).isNone && !(s.key_usage_stats k).credits_exhausted) with
  | some k => .ok k s
  | none => .exhausted s

/-- The while loop of `_get_next_available_key`.  `fuel` is
`len(api_keys) - attempts`; the loop guard `attempts < len(api_keys)`
corresponds to `fuel = 0` falling through to `bestKeyResult`. -/
def selectLoop (now initialIndex : Nat) : Nat → ORState → SelectResult
  | 0, s => bestKeyResult s
  | fuel + 1, s =>
    let key := keyAt s s.current_key_index
    match s.key_cooldowns key with
    | some cooldownUntil =>
      if now < cooldownUntil then
        selectLoop now initialIndex fuel (rotateKey s)
      else
        let s1 := clearCooldown s key
        let st := s1.key_usage_stats key
        if !st.credits_exhausted && !st.rate_limited then .ok key s1
        else
          let s2 := rotateKey s1
          if fuel = 0 ∧ s2.current_key_index = initialIndex then fallbackScan s2
          else selectLoop now initialIndex fuel s2
    | none =>
      let st := s.key_usage_stats key
      if !st.credits_exhausted && !st.rate_limited then .ok key s
      else
        let s2 := rotateKey s
        if fuel = 0 ∧ s2.current_key_index = initialIndex then fallbackScan s2
        else selectLoop now initialIndex fuel s2

/-- Models `_get_next_available_key`. -/
def getNextAvailableKey (s : ORState) (now : Nat) : SelectResult :=
  selectLoop now s.current_key_index (nKeys s) s

/-- The condition under which the scan of `_get_next_available_key` returns a
key: no unexpired cooldown, and (when not in the cooldown table) neither
exclusion flag set.  The comparison mirrors `datetime.now() < cooldown_until`. -/
def usableKey (s : ORState) (now : Nat) (k : String) : Bool :=
  match s.key_cooldowns k with
  | some t => decide (t ≤ now)
  | none => !(s.key_usage_stats k).credits_exhausted && !(s.key_usage_stats k).rate_limited

/-- The state after the scan returns the key at index `i`: the cursor rests at
`i`, and an (expired) cooldown entry for that key has been removed together
with its flags. -/
def postSelect (s : ORState) (i : Nat) : ORState :=
  let key := keyAt s i
  let s1 := { s with current_key_index := i }
  match s.key_cooldowns key with
  | some _ => clearCooldown s1 key
  | none => s1

/-- Models `_handle_api_error`: increment the error count, then set flag and cooldown
according to the error class. -/
def handleApiError (s : ORState) (key : String) (errMsg : String) (now : Nat) : ORState :=
  let st0 := s.key_usage_stats key
  let st := { st0 with errors := st0.errors + 1 }
  match classifyError errMsg with
  | .payment =>
    { s with
      key_usage_stats := fun k =>
        if k = key then { st with credits_exhausted := true } else s.key_usage_stats k,
      key_cooldowns := fun k =>
        if k = key then some (now + 3600) else s.key_cooldowns k }
  | .rateLimit =>
    { s with
      key_usage_stats := fun k =>
        if k = key then { st with rate_limited := true } else s.key_usage_stats k,
      key_cooldowns := fun k =>
        if k = key then some (now + 300) else s.key_cooldowns k }
  | .other =>
    { s with
      key_usage_stats := fun k => if k = key then st else s.key_usage_stats k,
      key_cooldowns := fun k =>
        if k = key then some (now + 30) else s.key_cooldowns k }

/-- The statistics update at the top of each `chat_completion` attempt. -/
def touchKey (s : ORState) (key : String) (now : Nat) : ORState :=
  { s with key_usage_stats := fun k =>
      if k = key then
        { s.key_usage_stats key with
          requests := (s.key_usage_stats key).requests + 1,
          last_used := some now }
      else s.key_usage_stats k }

/-- Outcome of one outbound call attempt, abstracting the network. -/
inductive CallOutcome where
  | success
  | statusError (code : Nat) (msg : String)
  | otherError (msg : String)
deriving DecidableEq

/-- Result of `chat_completion`: success with the key used, a propagated
exception, or a crash (re-raising with no bound key / no recorded error). -/
inductive ChatResult where
  | ok (key : String) (s : ORState)
  | raised (e : CallOutcome) (s : ORState)
  | crash (s : ORState)

/-- The message of the exception raised by `_get_next_available_key`. -/
def exhaustedMessage : String := "Todas as chaves OpenRouter estão esgotadas ou em cooldown."

def maxRetries : Nat := 3

/-- The retry loop of `chat_completion`.  `fuel` counts the remaining
attempts; the current attempt index is `maxR - fuel`.  A selection exception
is caught by the generic handler, which records the error against the key of
the previous attempt (on the first attempt there is none: the handler itself
crashes). An `APIStatusError` with code 402 is re-raised immediately; every
other failure retries. -/
def chatCompletionLoop (f : Nat → CallOutcome) (now maxR : Nat) :
    Nat → Option CallOutcome → Option String → ORState → ChatResult
  | 0, last, _, s =>
    match last with
    | some e => .raised e s
    | none => .crash s
  | fuel + 1, _, prevKey, s =>
    match getNextAvailableKey s now with
    | .exhausted s1 =>
      match prevKey with
      | none => .crash s1
      | some pk =>
        let s2 := handleApiError s1 pk exhaustedMessage now
        chatCompletionLoop f now maxR fuel (some (.otherError exhaustedMessage)) (some pk) s2
    | .ok key s1 =>
      let s2 := touchKey s1 key now
      match f (maxR - (fuel + 1)) with
      | .success => .ok key (rotateKey s2)
      | .statusError code msg =>
        let s3 := handleApiError s2 key msg now
        if code = 402 then .raised (.statusError code msg) s3
        else chatCompletionLoop f now maxR fuel (some (.statusError code msg)) (some key) s3
      | .otherError msg =>
        let s3 := handleApiError s2 key msg now
        chatCompletionLoop f now maxR fuel (some (.otherError msg)) (some key) s3

/-- Models `chat_completion` with `max_retries = 3`. -/
def chatCompletion (f : Nat → CallOutcome) (now : Nat) (s : ORState) : ChatResult :=
  chatCompletionLoop f now maxRetries maxRetries none none s

/-- Models `_load_api_keys`: collect `OPENROUTER_API_KEY` and
`OPENROUTER_API_KEY_1` .. `OPENROUTER_API_KEY_9`; raise `ValueError` when
none is present. -/
def loadApiKeys (env : String → Option String) : Except String (List String) :=
  let keys :=
    (match env ("OPENROUTER_API_KEY") with | some k => [k] | none => []) ++
      ((List.range' 1 9).filterMap fun i => env ("OPENROUTER_API_KEY_" ++ toString i))
  if keys = [] then
    .error ("Nenhuma chave OpenRouter encontrada nas variáveis de ambiente")
  else .ok keys

/-- Observable key of a selection result. -/
def selectedKey : SelectResult → Option String
  | .ok k _ => some k
  | .exhausted _ => none

/-- Observable key of a chat-completion result (set on success only). -/
def chatKey : ChatResult → Option String
  | .ok k _ => some k
  | _ => none

/-- The invariant relating flags and the cooldown table: any key with
`credits_exhausted` or `rate_limited` set is present in the cooldown table.
It holds initially and is preserved by every operation of the manager,
together with the cursor being in range. -/
def InvOR (s : ORState) : Prop :=
  s.current_key_index < nKeys s ∧
    ∀ k ∈ s.api_keys,
      ((s.key_usage_stats k).credits_exhausted = true ∨
        (s.key_usage_stats k).rate_limited = true) →
      (s.key_cooldowns k).isSome = true

instance (s : ORState) : Decidable (InvOR s) := by
  unfold InvOR; infer_instance

/-! ### EnhancedAPIRotationManager -/

/-- The `APIStatus` enum of the enhanced manager. -/
inductive APIStatus where
  | active
  | rate_limited
  | error
  | offline
deriving DecidableEq, Inhabited

/-- The `APIEndpoint` dataclass. -/
structure APIEndpoint where
  name : String
  api_key : String
  base_url : String
  status : APIStatus := .active
  last_used : Option Nat := none
  error_count : Nat := 0
  rate_limit_reset : Option Nat := none
  requests_made : Nat := 0
  max_requests_per_minute : Nat := 60
deriving DecidableEq, Inhabited

/-- Models `_is_api_available`: the lazy per-record evaluation.  Returns the
availability verdict together with the (possibly mutated) record: a
RATE_LIMITED record whose reset has passed becomes ACTIVE with its request
counter zeroed — its `rate_limit_reset` field is left untouched. -/
def isApiAvailable (api : APIEndpoint) (now : Nat) : Bool × APIEndpoint :=
  if api.status = .offline then (false, api)
  else if api.status = .rate_limited then
    match api.rate_limit_reset with
    | some t =>
        if t < now then (true, { api with status := .active, requests_made := 0 })
        else (false, api)
    | none => (false, api)
  else if api.status = .error ∧ api.error_count > 5 then (false, api)
  else (true, api)

/-- One record's update inside `_perform_health_check`: clear an expired rate
limit (restoring ACTIVE, clearing the reset timestamp and zeroing the
counter), then rate-limit the record for one minute if its request counter
reached the per-minute cap. -/
def healthCheckEndpoint (api : APIEndpoint) (now : Nat) : APIEndpoint :=
  if api.status = .offline then api
  else
    let api1 :=
      match api.rate_limit_reset with
      | some t =>
          if t < now then
            { api with status := .active, rate_limit_reset := none, requests_made := 0 }
          else api
      | none => api
    if api1.requests_made ≥ api1.max_requests_per_minute then
      { api1 with status := .rate_limited, rate_limit_reset := some (now + 60) }
    else api1

/-- Models `_perform_health_check` over one service's pool. -/
def performHealthCheck (pool : List APIEndpoint) (now : Nat) : List APIEndpoint :=
  pool.map (healthCheckEndpoint · now)

/-- One service's slice of the manager state: its endpoint list, the rotation
cursor `current_api_index[service]`, and `last_health_check[service]`. -/
structure ServicePool where
  apis : List APIEndpoint
  currentIndex : Nat
  lastHealthCheck : Option Nat
deriving Inhabited

/-- Models `_needs_health_check` (interval 300 seconds). -/
def needsHealthCheck (lastCheck : Option Nat) (now : Nat) : Bool :=
  match lastCheck with
  | none => true
  | some t => decide (now - t > 300)

/-- The scan of `get_active_api`: try indices `(start + i) % n` for
`i = 0, 1, ...` and return the first index whose record the lazy evaluation
deems available, together with that (possibly mutated) record. -/
def scanFrom (apis : List APIEndpoint) (start now : Nat) (offset : Nat) :
    Nat → Option (Nat × APIEndpoint)
  | 0 => none
  | fuel + 1 =>
    let idx := (start + offset) % apis.length
    let api := apis.getD idx default
    match isApiAvailable api now with
    | (true, api1) => some (idx, api1)
    | (false, _) => scanFrom apis start now (offset + 1) fuel

/-- Models `get_active_api`: `None` for an empty pool; otherwise run the interval
gated (or forced) health sweep, then scan for an available record.  On
success the cursor is set to the returned index and the record's
`last_used`/`requests_made` are updated; otherwise `None`. -/
def getActiveApi (p : ServicePool) (now : Nat) (forceCheck : Bool) :
    Option APIEndpoint × ServicePool :=
  if p.apis.isEmpty then (none, p)
  else
    let p1 :=
      if forceCheck || needsHealthCheck p.lastHealthCheck now then
        { p with apis := performHealthCheck p.apis now, lastHealthCheck := some now }
      else p
    match scanFrom p1.apis p1.currentIndex now 0 p1.apis.length with
    | some (idx, api1) =>
        let api2 := { api1 with last_used := some now, requests_made := api1.requests_made + 1 }
        (some api2, { p1 with apis := p1.apis.set idx api2, currentIndex := idx })
    | none => (none, p1)

/-- Models `mark_api_error`: find the first record with the given name, increment its
error count, and set status ERROR once the count exceeds 3. -/
def markApiError : List APIEndpoint → String → List APIEndpoint
  | [], _ => []
  | api :: rest, nm =>
    if api.name = nm then
      let api1 := { api with error_count := api.error_count + 1 }
      let api2 := if api1.error_count > 3 then { api1 with status := .error } else api1
      api2 :: rest
    else api :: markApiError rest nm

/-- Models `mark_api_rate_limited`: set status RATE_LIMITED with the given reset
time, defaulting to one minute from now. -/
def markApiRateLimited : List APIEndpoint → String → Option Nat → Nat → List APIEndpoint
  | [], _, _, _ => []
  | api :: rest, nm, resetTime, now =>
    if api.name = nm then
      { api with status := .rate_limited, rate_limit_reset := some (resetTime.getD (now + 60)) }
        :: rest
    else api :: markApiRateLimited rest nm resetTime now

/-- Models `reset_api_errors` applied to one service's pool: zero every error count
and restore ACTIVE status to ERROR records. -/
def resetApiErrors (pool : List APIEndpoint) : List APIEndpoint :=
  pool.map fun api =>
    let api1 := { api with error_count := 0 }
    if api1.status = .error then { api1 with status := .active } else api1

/-! ### Startup configuration loading (`_load_api_configurations`) -/

/-- Python's truthiness-and-placeholder filter:
`if key and key not in [placeholder, ..., None]`. -/
def keepKey (phs : List String) : Option String → Option String
  | none => none
  | some k => if k = "" then none else if phs.contains k then none else some k

/-- Build the endpoint list for one service from candidate keys (1-based
naming, invalid keys skipped). -/
def buildEndpoints (keys : List (Option String)) (phs : List String)
    (nameStem base : String) (rpm : Nat) : List APIEndpoint :=
  (List.enumFrom 1 keys).filterMap fun ik =>
    match keepKey phs ik.2 with
    | some key =>
        some { name := nameStem ++ toString ik.1, api_key := key, base_url := base,
               max_requests_per_minute := rpm }
    | none => none

/-- The seven per-service pools built at startup. -/
structure EnhancedPools where
  qwen : List APIEndpoint
  gemini : List APIEndpoint
  groq : List APIEndpoint
  tavily : List APIEndpoint
  exa : List APIEndpoint
  serpapi : List APIEndpoint
  youtube : List APIEndpoint
deriving DecidableEq

/-- Models `_load_api_configurations`: total — a service with no configured
credential simply gets an empty list. -/
def loadApiConfigurations (env : String → Option String) : EnhancedPools :=
  { qwen := buildEndpoints
      [env ("OPENROUTER_API_KEY"), env ("OPENROUTER_API_KEY_1"), env ("OPENROUTER_API_KEY_2")]
      ["your_openrouter_key_1", "your_openrouter_key_2"] ("qwen_")
      ((env ("OPENROUTER_BASE_URL")).getD ("https://openrouter.ai/api/v1")) 100
  , gemini := buildEndpoints [env ("GEMINI_API_KEY"), env ("GEMINI_API_KEY_1")]
      ["your_gemini_key_1", "your_gemini_key_2"] ("gemini_")
      ("https://generativelanguage.googleapis.com/v1beta") 60
  , groq := buildEndpoints [env ("GROQ_API_KEY"), env ("GROQ_API_KEY_1")]
      ["your_groq_key_1", "your_groq_key_2"] ("groq_")
      ("https://api.groq.com/openai/v1") 30
  , tavily := buildEndpoints [env ("TAVILY_API_KEY")] ["your_tavily_key_1"] ("tavily_")
      ("https://api.tavily.com") 100
  , exa := buildEndpoints [env ("EXA_API_KEY"), env ("EXA_API_KEY_1")] ["your_exa_key_1"]
      ("exa_") ("https://api.exa.ai") 100
  , serpapi := buildEndpoints [env ("SERPER_API_KEY")] ["your_serpapi_key_1"] ("serper_")
      ("https://google.serper.dev/search") 100
  , youtube := buildEndpoints [env ("YOUTUBE_API_KEY")] ["your_youtube_key_1"] ("youtube_")
      ("https://www.googleapis.com/youtube/v3") 100 }

/-- All seven pools empty. -/
def emptyPools : EnhancedPools :=
  { qwen := [], gemini := [], groq := [], tavily := [], exa := [], serpapi := [], youtube := [] }

/-! ### Basic lemmas about the OpenRouter selection scan -/

theorem api_keys_rotate (s : ORState) : (rotateKey s).api_keys = s.api_keys := rfl

theorem nKeys_rotate (s : ORState) : nKeys (rotateKey s) = nKeys s := rfl

theorem keyAt_rotate (s : ORState) (i : Nat) : keyAt (rotateKey s) i = keyAt s i := rfl

theorem usable_rotate (s : ORState) (now : Nat) (k : String) :
    usableKey (rotateKey s) now k = usableKey s now k := rfl

theorem keyAt_mem (s : ORState) (i : Nat) (h : i < nKeys s) : keyAt s i ∈ s.api_keys := by
  unfold keyAt
  rw [List.getD_eq_getElem _ _ h]
  exact List.getElem_mem h

theorem inv_rotate {s : ORState} (h : InvOR s) : InvOR (rotateKey s) := by
  obtain ⟨hc, hflag⟩ := h
  exact ⟨Nat.mod_lt _ (by omega), hflag⟩

theorem inv_clearCooldown {s : ORState} (h : InvOR s) (key : String) :
    InvOR (clearCooldown s key) := by
  obtain ⟨hc, hflag⟩ := h
  refine ⟨hc, ?_⟩
  intro k hk hf
  by_cases hkey : k = key
  · simp [clearCooldown, hkey] at hf
  · simp only [clearCooldown, if_neg hkey] at hf ⊢
    exact hflag k hk hf

theorem inv_touchKey {s : ORState} (h : InvOR s) (key : String) (now : Nat) :
    InvOR (touchKey s key now) := by
  obtain ⟨hc, hflag⟩ := h
  refine ⟨hc, ?_⟩
  intro k hk hf
  by_cases hkey : k = key
  · subst hkey
    simp only [touchKey, if_pos rfl] at hf
    exact hflag k hk hf
  · simp only [touchKey, if_neg hkey] at hf
    exact hflag k hk hf

theorem inv_handleApiError {s : ORState} (h : InvOR s) (key msg : String) (now : Nat) :
    InvOR (handleApiError s key msg now) := by
  obtain ⟨hc, hflag⟩ := h
  unfold handleApiError
  cases classifyError msg <;> refine ⟨hc, ?_⟩ <;> intro k hk hf <;> by_cases hkey : k = key <;>
      simp only [hkey, if_pos rfl, if_neg, Option.isSome_some, not_false_eq_true,
        reduceIte] <;>
    first
      | rfl
      | simp [hkey]
      | (simp only [if_neg hkey] at hf ⊢; exact hflag k hk hf)

/-- Unfolding: a key in unexpired cooldown is skipped. -/
theorem selectLoop_skip_cooldown (now init fuel : Nat) (s : ORState) (t : Nat)
    (hcd : s.key_cooldowns (keyAt s s.current_key_index) = some t) (hlt : now < t) :
    selectLoop now init (fuel + 1) s = selectLoop now init fuel (rotateKey s) := by
  simp only [selectLoop, hcd, if_pos hlt]

/-- Unfolding: a key whose cooldown has expired is cleaned up and returned. -/
theorem selectLoop_expired (now init fuel : Nat) (s : ORState) (t : Nat)
    (hcd : s.key_cooldowns (keyAt s s.current_key_index) = some t) (hlt : ¬ now < t) :
    selectLoop now init (fuel + 1) s =
      .ok (keyAt s s.current_key_index) (clearCooldown s (keyAt s s.current_key_index)) := by
  simp only [selectLoop, hcd, if_neg hlt]
  simp [clearCooldown]

/-- Unfolding: a key with no cooldown and clear flags is returned as is. -/
theorem selectLoop_clean (now init fuel : Nat) (s : ORState)
    (hcd : s.key_cooldowns (keyAt s s.current_key_index) = none)
    (hflag : (!(s.key_usage_stats (keyAt s s.current_key_index)).credits_exhausted &&
        !(s.key_usage_stats (keyAt s s.current_key_index)).rate_limited) = true) :
    selectLoop now init (fuel + 1) s = .ok (keyAt s s.current_key_index) s := by
  simp only [selectLoop, hcd, hflag, if_true]

/-- Unfolding: a flagged key with no cooldown is skipped (when fuel remains). -/
theorem selectLoop_skip_flagged (now init fuel : Nat) (s : ORState)
    (hcd : s.key_cooldowns (keyAt s s.current_key_index) = none)
    (hflag : (!(s.key_usage_stats (keyAt s s.current_key_index)).credits_exhausted &&
        !(s.key_usage_stats (keyAt s s.current_key_index)).rate_limited) = false)
    (hfuel : fuel ≠ 0) :
    selectLoop now init (fuel + 1) s = selectLoop now init fuel (rotateKey s) := by
  simp only [selectLoop, hcd, hflag, Bool.false_eq_true, if_false]
  rw [if_neg]
  intro hand
  exact hfuel hand.1

/-- Under the flags-imply-cooldown invariant, the while loop of
`_get_next_available_key` never raises: it always returns a key (the raise
lives behind a branch that is unreachable from invariant states). -/
theorem selectLoop_ok_of_inv (now init : Nat) :
    ∀ (fuel : Nat) (s : ORState), InvOR s → 0 < nKeys s →
      ∃ k s', selectLoop now init fuel s = .ok k s' ∧ InvOR s' ∧ s'.api_keys = s.api_keys := by
  intro fuel
  induction fuel with
  | zero =>
    intro s hinv hn
    cases hl : s.api_keys with
    | nil => simp [nKeys, hl] at hn
    | cons k ks =>
      cases hbk : minErrorsKey s with
      | none => simp [minErrorsKey, hl] at hbk
      | some kk =>
        exact ⟨kk, s, by simp [selectLoop, bestKeyResult, hbk], hinv, hl⟩
  | succ fuel ih =>
    intro s hinv hn
    have hc := hinv.1
    have hmem : keyAt s s.current_key_index ∈ s.api_keys := keyAt_mem s _ hc
    cases hcd : s.key_cooldowns (keyAt s s.current_key_index) with
    | some t =>
      by_cases hlt : now < t
      · obtain ⟨k, s', heq, hinv', hkeys⟩ := ih (rotateKey s) (inv_rotate hinv) hn
        exact ⟨k, s', by rw [selectLoop_skip_cooldown now init fuel s t hcd hlt]; exact heq,
          hinv', hkeys⟩
      · exact ⟨keyAt s s.current_key_index, clearCooldown s (keyAt s s.current_key_index),
          selectLoop_expired now init fuel s t hcd hlt, inv_clearCooldown hinv _, rfl⟩
    | none =>
      cases hflag : (!(s.key_usage_stats (keyAt s s.current_key_index)).credits_exhausted &&
          !(s.key_usage_stats (keyAt s s.current_key_index)).rate_limited) with
      | true =>
        exact ⟨keyAt s s.current_key_index, s,
          selectLoop_clean now init fuel s hcd hflag, hinv, rfl⟩
      | false =>
        exfalso
        have hsome := hinv.2 (keyAt s s.current_key_index) hmem
        simp only [Bool.and_eq_false_iff, Bool.not_eq_false'] at hflag
        rcases hflag with hf | hf
        · have := hsome (Or.inl hf); rw [hcd] at this; simp at this
        · have := hsome (Or.inr hf); rw [hcd] at this; simp at this

theorem api_keys_postSelect (s : ORState) (i : Nat) :
    (postSelect s i).api_keys = s.api_keys := by
  cases h : s.key_cooldowns (keyAt s i) <;> simp [postSelect, h, clearCooldown]

theorem nKeys_postSelect (s : ORState) (i : Nat) : nKeys (postSelect s i) = nKeys s := by
  unfold nKeys
  rw [api_keys_postSelect]

theorem keyAt_postSelect (s : ORState) (i j : Nat) : keyAt (postSelect s i) j = keyAt s j := by
  unfold keyAt
  rw [api_keys_postSelect]

theorem cursor_postSelect (s : ORState) (i : Nat) :
    (postSelect s i).current_key_index = i := by
  cases h : s.key_cooldowns (keyAt s i) <;> simp [postSelect, h, clearCooldown]

theorem postSelect_rotate (s : ORState) (i : Nat) :
    postSelect (rotateKey s) i = postSelect s i := rfl

/-- Keys other than the selected one keep their usability across a selection. -/
theorem usable_postSelect_ne (s : ORState) (now : Nat) (i : Nat) (k : String)
    (hk : k ≠ keyAt s i) : usableKey (postSelect s i) now k = usableKey s now k := by
  cases h : s.key_cooldowns (keyAt s i) <;>
    simp [postSelect, h, usableKey, clearCooldown, if_neg hk]

/-- The while loop returns the first usable key of the scan order
`c, c+1, ..., (mod n)`, leaving the cursor at its index and clearing its
(expired) cooldown entry. -/
theorem selectLoop_spec (now init : Nat) :
    ∀ (fuel : Nat) (s : ORState) (j0 : Nat),
      s.current_key_index < nKeys s →
      j0 < fuel →
      usableKey s now (keyAt s ((s.current_key_index + j0) % nKeys s)) = true →
      (∀ j, j < j0 → usableKey s now (keyAt s ((s.current_key_index + j) % nKeys s)) = false) →
      selectLoop now init fuel s =
        .ok (keyAt s ((s.current_key_index + j0) % nKeys s))
          (postSelect s ((s.current_key_index + j0) % nKeys s)) := by
  intro fuel
  induction fuel with
  | zero => intro s j0 hc hj0; omega
  | succ fuel ih =>
    intro s j0 hc hj0 hu hmin
    have hn : 0 < nKeys s := by omega
    cases j0 with
    | zero =>
      have hceq : (s.current_key_index + 0) % nKeys s = s.current_key_index := by
        rw [Nat.add_zero]; exact Nat.mod_eq_of_lt hc
      rw [hceq] at hu ⊢
      cases hcd : s.key_cooldowns (keyAt s s.current_key_index) with
      | some t =>
        have ht : t ≤ now := by
          rw [usableKey, hcd] at hu; exact of_decide_eq_true hu
        rw [selectLoop_expired now init fuel s t hcd (by omega)]
        simp only [postSelect, hcd]
      | none =>
        have hflag := hu
        rw [usableKey, hcd] at hflag
        rw [selectLoop_clean now init fuel s hcd hflag]
        simp only [postSelect, hcd]
    | succ j =>
      have hu0 : usableKey s now (keyAt s s.current_key_index) = false := by
        have := hmin 0 (by omega)
        rwa [Nat.add_zero, Nat.mod_eq_of_lt hc] at this
      have hidx : ∀ j' : Nat,
          ((rotateKey s).current_key_index + j') % nKeys (rotateKey s) =
            (s.current_key_index + (j' + 1)) % nKeys s := by
        intro j'
        show ((s.current_key_index + 1) % nKeys s + j') % nKeys s = _
        rw [Nat.mod_add_mod]
        congr 1
        omega
      have hc2 : (rotateKey s).current_key_index < nKeys (rotateKey s) :=
        Nat.mod_lt _ (by omega)
      have hrec := ih (rotateKey s) j hc2 (by omega)
        (by rw [usable_rotate, keyAt_rotate, hidx]; exact hu)
        (by
          intro j' hj'
          rw [usable_rotate, keyAt_rotate, hidx]
          exact hmin (j' + 1) (by omega))
      rw [keyAt_rotate, hidx, postSelect_rotate] at hrec
      cases hcd : s.key_cooldowns (keyAt s s.current_key_index) with
      | some t =>
        have hlt : now < t := by
          rw [usableKey, hcd] at hu0
          have := of_decide_eq_false hu0
          omega
        rw [selectLoop_skip_cooldown now init fuel s t hcd hlt]
        exact hrec
      | none =>
        have hflag := hu0
        rw [usableKey, hcd] at hflag
        rw [selectLoop_skip_flagged now init fuel s hcd hflag (by omega)]
        exact hrec

/-- Every list member sits somewhere along the wrap-around scan order. -/
theorem mem_scan_order (s : ORState) (k : String) (c : Nat) (hc : c < nKeys s)
    (hk : k ∈ s.api_keys) : ∃ j < nKeys s, keyAt s ((c + j) % nKeys s) = k := by
  obtain ⟨⟨i, hi⟩, hget⟩ := List.mem_iff_get.1 hk
  have hi' : i < nKeys s := hi
  have hkey : keyAt s i = k := by
    unfold keyAt
    rw [List.getD_eq_getElem _ _ hi]
    simpa using hget
  by_cases hci : c ≤ i
  · refine ⟨i - c, by omega, ?_⟩
    have : c + (i - c) = i := by omega
    rw [this, Nat.mod_eq_of_lt hi', hkey]
  · refine ⟨i + nKeys s - c, by omega, ?_⟩
    have : c + (i + nKeys s - c) = i + nKeys s := by omega
    rw [this, Nat.add_mod_right, Nat.mod_eq_of_lt hi', hkey]

/-- When at least one key is usable, `_get_next_available_key` returns the
first usable key of the scan order. -/
theorem getNextAvailableKey_first_usable (s : ORState) (now : Nat)
    (hc : s.current_key_index < nKeys s)
    (hex : ∃ k ∈ s.api_keys, usableKey s now k = true) :
    ∃ j0 < nKeys s,
      (∀ j, j < j0 →
        usableKey s now (keyAt s ((s.current_key_index + j) % nKeys s)) = false) ∧
      usableKey s now (keyAt s ((s.current_key_index + j0) % nKeys s)) = true ∧
      getNextAvailableKey s now =
        .ok (keyAt s ((s.current_key_index + j0) % nKeys s))
          (postSelect s ((s.current_key_index + j0) % nKeys s)) := by
  obtain ⟨k, hkmem, hkus⟩ := hex
  obtain ⟨jw, hjw, hjk⟩ := mem_scan_order s k s.current_key_index hc hkmem
  have hP : ∃ j, usableKey s now (keyAt s ((s.current_key_index + j) % nKeys s)) = true :=
    ⟨jw, by rw [hjk]; exact hkus⟩
  classical
  let j0 := Nat.find hP
  have hj0P := Nat.find_spec hP
  have hj0min : ∀ j, j < j0 →
      usableKey s now (keyAt s ((s.current_key_index + j) % nKeys s)) = false := by
    intro j hj
    have := Nat.find_min hP hj
    simpa using this
  have hj0le : j0 ≤ jw := Nat.find_min' hP (by rw [hjk]; exact hkus)
  refine ⟨j0, by omega, hj0min, hj0P, ?_⟩
  exact selectLoop_spec now s.current_key_index (nKeys s) s j0 hc (by omega) hj0P hj0min

/-- Wrapping all the way around: `(c + 1 + j) % n = c` with `j < n` forces
`j = n - 1`. -/
theorem mod_wrap_eq (c n j : Nat) (hc : c < n) (hj : j < n)
    (h : (c + 1 + j) % n = c) : j = n - 1 := by
  have h1 : c % n = (c + 1 + j) % n := by rw [h, Nat.mod_eq_of_lt hc]
  have hdvd : n ∣ c + 1 + j - c := (Nat.modEq_iff_dvd' (by omega)).1 h1
  have heq : c + 1 + j - c = j + 1 := by omega
  rw [heq] at hdvd
  have := Nat.le_of_dvd (by omega) hdvd
  omega

/-- Every index other than `c` is reached strictly before wrapping back to
`c` when scanning from `c + 1`. -/
theorem mod_shift_hit (c n i : Nat) (hc : c < n) (hi : i < n) (hne : i ≠ c) :
    ∃ j, j < n - 1 ∧ (c + 1 + j) % n = i := by
  by_cases hci : c < i
  · refine ⟨i - c - 1, by omega, ?_⟩
    have heq : c + 1 + (i - c - 1) = i := by omega
    rw [heq, Nat.mod_eq_of_lt hi]
  · have hic : i < c := by omega
    refine ⟨i + n - c - 1, by omega, ?_⟩
    have heq : c + 1 + (i + n - c - 1) = i + n := by omega
    rw [heq, Nat.add_mod_right, Nat.mod_eq_of_lt hi]

/-! ### Lemmas about the enhanced manager's scan -/

theorem scanFrom_none (apis : List APIEndpoint) (now : Nat)
    (hne : 0 < apis.length)
    (h : ∀ api ∈ apis, (isApiAvailable api now).1 = false) :
    ∀ (fuel start offset : Nat), scanFrom apis start now offset fuel = none := by
  intro fuel
  induction fuel with
  | zero => intro start offset; rfl
  | succ fuel ih =>
    intro start offset
    have hidx : (start + offset) % apis.length < apis.length := Nat.mod_lt _ hne
    have hmem : apis.getD ((start + offset) % apis.length) default ∈ apis := by
      rw [List.getD_eq_getElem _ _ hidx]
      exact List.getElem_mem hidx
    have havail := h _ hmem
    simp only [scanFrom]
    cases hav : isApiAvailable (apis.getD ((start + offset) % apis.length) default) now with
    | mk b api1 =>
      rw [hav] at havail
      cases b
      · exact ih start (offset + 1)
      · simp at havail

/-- When every record of the pool is unavailable both before and after the
health sweep, `get_active_api` reports "no API available" by returning
`None`. -/
theorem getActiveApi_none (p : ServicePool) (now : Nat) (fc : Bool)
    (h : ∀ api ∈ p.apis, (isApiAvailable api now).1 = false ∧
        (isApiAvailable (healthCheckEndpoint api now) now).1 = false) :
    (getActiveApi p now fc).1 = none := by
  by_cases hemp : p.apis.isEmpty
  · simp [getActiveApi, hemp]
  · have hemp' : p.apis.isEmpty = false := by simpa using hemp
    have hlen : 0 < p.apis.length := by
      cases hl : p.apis with
      | nil => rw [hl] at hemp'; simp at hemp'
      | cons a l => simp [hl]
    unfold getActiveApi
    rw [hemp']
    simp only [Bool.false_eq_true, if_false]
    by_cases hsw : (fc || needsHealthCheck p.lastHealthCheck now) = true
    · rw [if_pos hsw]
      have h1 : ∀ api ∈ performHealthCheck p.apis now, (isApiAvailable api now).1 = false := by
        intro api hapi
        obtain ⟨a, ha, rfl⟩ := List.mem_map.1 hapi
        exact (h a ha).2
      have hlen1 : 0 < (performHealthCheck p.apis now).length := by
        simpa [performHealthCheck] using hlen
      rw [scanFrom_none _ now hlen1 h1]
    · rw [if_neg hsw]
      have h1 : ∀ api ∈ p.apis, (isApiAvailable api now).1 = false := fun a ha => (h a ha).1
      rw [scanFrom_none _ now hlen h1]

/-- The function `_handle_api_error` always installs `now + duration-of-class` as the
key's cooldown expiry, for every error class. -/
theorem handleApiError_cooldown_self (s : ORState) (key errMsg : String) (now : Nat) :
    (handleApiError s key errMsg now).key_cooldowns key
      = some (now + cooldownDuration (classifyError errMsg)) := by
  cases h : classifyError errMsg <;> simp [handleApiError, h, cooldownDuration]

theorem cooldownDuration_le (e : ErrClass) : cooldownDuration e ≤ 3600 := by
  cases e <;> simp [cooldownDuration]

/-! ### Concrete states used by witnesses and counterexamples -/

/-- Fresh per-key statistics, as installed by `__init__`. -/
def baseStats : KeyStats :=
  { requests := 0, errors := 0, last_used := none,
    credits_exhausted := false, rate_limited := false }

/-- A one-key manager state as produced by `__init__`. -/
def oneKeyState : ORState :=
  { api_keys := ["a"], current_key_index := 0,
    key_usage_stats := fun _ => baseStats, key_cooldowns := fun _ => none }

/-- A two-key manager state as produced by `__init__`. -/
def twoKeyState : ORState :=
  { api_keys := ["a", "b"], current_key_index := 0,
    key_usage_stats := fun _ => baseStats, key_cooldowns := fun _ => none }

/-- Both keys in a cooldown that expires at `t = 100`. -/
def twoKeyCooldownState : ORState :=
  { twoKeyState with key_cooldowns := fun _ => some 100 }

/-- An endpoint whose request counter exceeds its per-minute cap. -/
def capExceededApi : APIEndpoint :=
  { name := "qwen_1", api_key := "k", base_url := "u", status := .active, last_used := none,
    error_count := 0, rate_limit_reset := none, requests_made := 100,
    max_requests_per_minute := 60 }

/-- A RATE_LIMITED endpoint whose reset timestamp (10) already passed. -/
def staleResetApi : APIEndpoint :=
  { name := "gemini_1", api_key := "k", base_url := "u", status := .rate_limited,
    last_used := none, error_count := 0, rate_limit_reset := some 10, requests_made := 42,
    max_requests_per_minute := 60 }

/-- An ACTIVE endpoint with three reported errors. -/
def threeErrorApi : APIEndpoint :=
  { name := "groq_1", api_key := "k", base_url := "u", status := .active, last_used := none,
    error_count := 3, rate_limit_reset := none, requests_made := 0,
    max_requests_per_minute := 30 }

/-- An ERROR endpoint with seven reported errors. -/
def erroredApi : APIEndpoint := { threeErrorApi with error_count := 7, status := .error }

/-- Two healthy endpoints for one service, cursor at index 0, health sweep not
due. -/
def epA : APIEndpoint :=
  { name := "qwen_1", api_key := "ka", base_url := "u", status := .active, last_used := none,
    error_count := 0, rate_limit_reset := none, requests_made := 0,
    max_requests_per_minute := 100 }

def epB : APIEndpoint := { epA with name := "qwen_2", api_key := "kb" }

def svcPool : ServicePool := { apis := [epA, epB], currentIndex := 0, lastHealthCheck := some 0 }

/-! ### Claims -/

/-- C4 counterexample: the lazy per-record evaluation `_is_api_available`
does not check the request counter at all — a record at 100 requests with a
cap of 60 and zero errors is deemed available and is not transitioned to
RATE_LIMITED, contradicting the claim that the cap check happens during the
lazy evaluation. -/
theorem lazy_eval_ignores_request_cap :
    isApiAvailable capExceededApi 50 = (true, capExceededApi) ∧
      capExceededApi.requests_made ≥ capExceededApi.max_requests_per_minute ∧
      capExceededApi.error_count = 0 := by decide

/-- C4 amended: only the interval-gated bulk sweep `_perform_health_check`
performs the cap check: it transitions a cap-exceeded record to RATE_LIMITED
with `rate_limit_reset = now + 1 minute`, after which the record is unusable;
the lazy `_is_api_available` evaluation deems the same record available. -/
theorem request_cap_sweep_only (api : APIEndpoint) (now : Nat)
    (hst : api.status = .active) (hres : api.rate_limit_reset = none)
    (hcap : api.requests_made ≥ api.max_requests_per_minute) :
    healthCheckEndpoint api now
        = { api with status := .rate_limited, rate_limit_reset := some (now + 60) } ∧
      (isApiAvailable (healthCheckEndpoint api now) now).1 = false ∧
      (isApiAvailable api now).1 = true := by
  have h1 : healthCheckEndpoint api now
      = { api with status := .rate_limited, rate_limit_reset := some (now + 60) } := by
    unfold healthCheckEndpoint
    rw [hst, hres]
    simp [hcap]
  refine ⟨h1, ?_, ?_⟩
  · rw [h1]
    unfold isApiAvailable
    simp
  · unfold isApiAvailable
    rw [hst]
    simp

/-- C4 amended, witness at a concrete record. -/
theorem request_cap_sweep_only_witness :
    healthCheckEndpoint capExceededApi 7
        = { capExceededApi with status := .rate_limited, rate_limit_reset := some (7 + 60) } ∧
      (isApiAvailable (healthCheckEndpoint capExceededApi 7) 7).1 = false ∧
      (isApiAvailable capExceededApi 7).1 = true :=
  request_cap_sweep_only capExceededApi 7 (by decide) (by decide) (by decide)

/-- C5 counterexample: evaluating a RATE_LIMITED record whose reset (10) lies
in the past (now = 20) yields an ACTIVE record with the counter zeroed but
with `rate_limit_reset` still set to 10 — the claimed "rate_limit_reset
non-null iff RATE_LIMITED (or cooldown)" invariant is violated, and the reset
is not cleared as claimed. -/
theorem lazy_recovery_keeps_reset :
    isApiAvailable staleResetApi 20
        = (true, { staleResetApi with status := .active, requests_made := 0 }) ∧
      ({ staleResetApi with status := .active, requests_made := 0 }).rate_limit_reset
          = some 10 ∧
      ({ staleResetApi with status := .active, requests_made := 0 }).status = .active := by
  decide

/-- C5 amended: an expired RATE_LIMITED record transitions to ACTIVE with its
counter zeroed on lazy evaluation, but `rate_limit_reset` is retained there;
only the bulk sweep `_perform_health_check` also clears `rate_limit_reset`,
so "reset non-null iff RATE_LIMITED" holds only along the sweep path. -/
theorem rate_limit_reset_cleared_only_by_sweep (api : APIEndpoint) (t now : Nat)
    (hst : api.status = .rate_limited) (hres : api.rate_limit_reset = some t)
    (hexp : t < now) (hmax : 0 < api.max_requests_per_minute) :
    isApiAvailable api now = (true, { api with status := .active, requests_made := 0 }) ∧
      (isApiAvailable api now).2.rate_limit_reset = some t ∧
      healthCheckEndpoint api now
        = { api with status := .active, rate_limit_reset := none, requests_made := 0 } := by
  have h1 : isApiAvailable api now
      = (true, { api with status := .active, requests_made := 0 }) := by
    unfold isApiAvailable
    rw [hst, hres]
    simp [hexp]
  refine ⟨h1, by rw [h1]; simpa using hres, ?_⟩
  unfold healthCheckEndpoint
  rw [hst, hres]
  simp [hexp]
  omega

/-- C5 amended, witness at a concrete record. -/
theorem rate_limit_reset_cleared_only_by_sweep_witness :
    isApiAvailable staleResetApi 20
        = (true, { staleResetApi with status := .active, requests_made := 0 }) ∧
      (isApiAvailable staleResetApi 20).2.rate_limit_reset = some 10 ∧
      healthCheckEndpoint staleResetApi 20
        = { staleResetApi with status := .active, rate_limit_reset := none, requests_made := 0 } :=
  rate_limit_reset_cleared_only_by_sweep staleResetApi 10 20 (by decide) (by decide)
    (by decide) (by decide)

/-- C6 counterexample: the fourth reported error drives the count past the
transition threshold (3), setting status ERROR — yet `_is_api_available`
still deems the record available, because exclusion requires error count
greater than 5.  An ERRORED record with count 4 remains selectable,
contradicting the claim that crossing the threshold excludes it. -/
theorem errored_record_still_selectable :
    markApiError [threeErrorApi] ("groq_1")
        = [{ threeErrorApi with error_count := 4, status := .error }] ∧
      (isApiAvailable { threeErrorApi with error_count := 4, status := .error } 0).1
          = true := by
  decide

/-- C6 amended: `mark_api_error` sets status ERROR once the count exceeds 3,
but selection excludes a record only when status is ERROR and the count
exceeds 5; `reset_api_errors` zeroes the count, restores ACTIVE to ERROR
records, and makes them selectable again. -/
theorem error_threshold_and_reset (api : APIEndpoint) (now : Nat) :
    (3 < api.error_count + 1 → markApiError [api] api.name
        = [{ api with error_count := api.error_count + 1, status := .error }]) ∧
      (api.status = .error → 5 < api.error_count → (isApiAvailable api now).1 = false) ∧
      (api.status = .error →
        resetApiErrors [api] = [{ api with error_count := 0, status := .active }] ∧
          (isApiAvailable { api with error_count := 0, status := .active } now).1 = true) := by
  refine ⟨?_, ?_, ?_⟩
  · intro hcnt
    simp [markApiError, hcnt]
  · intro hst hcnt
    unfold isApiAvailable
    rw [hst]
    simp [hcnt]
  · intro hst
    constructor
    · simp [resetApiErrors, hst]
    · unfold isApiAvailable
      simp

/-- C6 amended, witness at a concrete record. -/
theorem error_threshold_and_reset_witness :
    markApiError [erroredApi] erroredApi.name
        = [{ erroredApi with error_count := erroredApi.error_count + 1, status := .error }] ∧
      (isApiAvailable erroredApi 0).1 = false ∧
      (resetApiErrors [erroredApi]
          = [{ erroredApi with error_count := 0, status := .active }] ∧
        (isApiAvailable { erroredApi with error_count := 0, status := .active } 0).1
            = true) := by
  have h := error_threshold_and_reset erroredApi 0
  exact ⟨h.1 (by decide), h.2.1 (by decide) (by decide), h.2.2 (by decide)⟩

/-- C7 counterexample: `OpenRouterAPIManager._load_api_keys` raises
`ValueError` when the environment holds no OpenRouter key, so constructing
the manager with no credential configured is a startup failure, contradicting
the claim. -/
theorem load_api_keys_raises_on_empty_env :
    loadApiKeys (fun _ => none)
      = .error ("Nenhuma chave OpenRouter encontrada nas variáveis de ambiente") := by
  rfl

/-- C7 amended: the enhanced manager's `_load_api_configurations` is total
and yields empty pools for every unconfigured service, but the OpenRouter
manager's `_load_api_keys` raises `ValueError` at construction when no key is
present. -/
theorem empty_config_loading (env : String → Option String) (h : ∀ name, env name = none) :
    loadApiConfigurations env = emptyPools ∧ ∃ msg, loadApiKeys env = .error msg := by
  constructor
  · unfold loadApiConfigurations
    simp only [h]
    decide
  · refine ⟨("Nenhuma chave OpenRouter encontrada nas variáveis de ambiente"), ?_⟩
    unfold loadApiKeys
    simp only [h]
    rfl

/-- C7 amended, witness at the empty environment. -/
theorem empty_config_loading_witness :
    loadApiConfigurations (fun _ => none) = emptyPools ∧
      ∃ msg, loadApiKeys (fun _ => none) = .error msg :=
  empty_config_loading (fun _ => none) (fun _ => rfl)

/-- C9: reporting a payment-required failure never decreases the cooldown
already in effect for a credential: whatever cooldown the previous
`_handle_api_error` installed (any class, at an earlier time), a subsequent
payment-classified report moves the expiry to `now + 1 hour`, which is at
least the previous expiry. -/
theorem payment_cooldown_monotone (s : ORState) (k e0 e : String) (t0 now T : Nat)
    (h0 : t0 ≤ now) (hpay : classifyError e = .payment)
    (hT : (handleApiError s k e0 t0).key_cooldowns k = some T) :
    ∃ T', (handleApiError (handleApiError s k e0 t0) k e now).key_cooldowns k = some T' ∧
      T ≤ T' := by
  have h1 := handleApiError_cooldown_self s k e0 t0
  rw [h1] at hT
  have hTeq : T = t0 + cooldownDuration (classifyError e0) := (Option.some.inj hT).symm
  have h2 := handleApiError_cooldown_self (handleApiError s k e0 t0) k e now
  rw [hpay] at h2
  refine ⟨now + cooldownDuration .payment, h2, ?_⟩
  have hle := cooldownDuration_le (classifyError e0)
  simp only [cooldownDuration] at *
  omega

/-- C9 witness: a rate-limit cooldown (expiry 300) followed by a payment
report at time 100 extends the exclusion. -/
theorem payment_cooldown_monotone_witness :
    ∃ T', (handleApiError (handleApiError oneKeyState ("a") ("429 rate limit") 0) ("a")
        ("payment required") 100).key_cooldowns ("a") = some T' ∧ 300 ≤ T' :=
  payment_cooldown_monotone oneKeyState ("a") ("429 rate limit") ("payment required") 0 100 300
    (by omega) (by decide) (by decide)

/-- C10: every `_handle_api_error` report unconditionally overwrites the
key's cooldown with `now + duration-of-class`; in particular an hour-scale
payment cooldown (expiry 3600) installed at time 0 is replaced by a 40-second
expiry when a generic error is reported at time 10 — a strict shortening. -/
theorem handle_error_overwrites_cooldown :
    (∀ (s : ORState) (k e : String) (now : Nat),
      (handleApiError s k e now).key_cooldowns k
        = some (now + cooldownDuration (classifyError e))) ∧
      (handleApiError oneKeyState ("a") ("402 payment required") 0).key_cooldowns ("a")
          = some 3600 ∧
      (handleApiError (handleApiError oneKeyState ("a") ("402 payment required") 0) ("a")
          ("network timeout") 10).key_cooldowns ("a") = some 40 ∧
      40 < 3600 := by
  refine ⟨handleApiError_cooldown_self, ?_, ?_, by omega⟩ <;> decide

/-- A pool for a service with no configured credential. -/
def emptySvcPool : ServicePool := { apis := [], currentIndex := 0, lastHealthCheck := none }

/-- C1 counterexample: with both keys of the pool in unexpired cooldown (no
usable credential), `_get_next_available_key` does not raise and does not
signal exhaustion: the cooldown branch's `continue` bypasses the exhaustion
check, the while loop exits, and the min-errors fallback returns key "a"
anyway. -/
theorem select_returns_despite_exhaustion :
    usableKey twoKeyCooldownState 5 ("a") = false ∧
      usableKey twoKeyCooldownState 5 ("b") = false ∧
      selectedKey (getNextAvailableKey twoKeyCooldownState 5) = some ("a") := by decide

/-- C1 amended: in every invariant-reachable state with no usable credential
the OpenRouter selector still returns some key (the min-errors fallback)
instead of raising the exhausted exception; the enhanced manager's
`get_active_api` does return `None` when no record of the pool is
available. -/
theorem exhaustion_signalling (s : ORState) (now : Nat) (p : ServicePool) (fc : Bool) :
    (InvOR s → 0 < nKeys s → (∀ k ∈ s.api_keys, usableKey s now k = false) →
      ∃ k s', getNextAvailableKey s now = .ok k s') ∧
      ((∀ api ∈ p.apis, (isApiAvailable api now).1 = false ∧
          (isApiAvailable (healthCheckEndpoint api now) now).1 = false) →
        (getActiveApi p now fc).1 = none) := by
  constructor
  · intro hinv hn _
    obtain ⟨k, s', heq, _, _⟩ :=
      selectLoop_ok_of_inv now s.current_key_index (nKeys s) s hinv hn
    exact ⟨k, s', heq⟩
  · exact getActiveApi_none p now fc

/-- C1 amended, witness: both keys cooling down, and an empty enhanced pool. -/
theorem exhaustion_signalling_witness :
    (∃ k s', getNextAvailableKey twoKeyCooldownState 5 = .ok k s') ∧
      (getActiveApi emptySvcPool 5 false).1 = none := by
  have h := exhaustion_signalling twoKeyCooldownState 5 emptySvcPool false
  exact ⟨h.1 (by decide) (by decide) (by decide),
    h.2 (by intro api hapi; simp [emptySvcPool] at hapi)⟩

/-- C2 counterexample: key "a" sits in the cooldown table with expiry 100,
the current time 5 has not passed it, yet the selection returns "a" (via the
min-errors fallback reached when every key is cooling down). -/
theorem cooldown_key_returned :
    twoKeyCooldownState.key_cooldowns ("a") = some 100 ∧ 5 < 100 ∧
      selectedKey (getNextAvailableKey twoKeyCooldownState 5) = some ("a") := by decide

/-- C2 amended: as long as at least one key of the pool is usable, the
selection returns a usable key — in particular never a key whose cooldown has
not expired; only when every key is excluded can the min-errors fallback
return a cooling-down key. -/
theorem cooldown_respected_when_usable_exists (s : ORState) (now : Nat)
    (hc : s.current_key_index < nKeys s)
    (hex : ∃ k ∈ s.api_keys, usableKey s now k = true) :
    ∃ k' s', getNextAvailableKey s now = .ok k' s' ∧ usableKey s now k' = true ∧
      ∀ t, s.key_cooldowns k' = some t → t ≤ now := by
  obtain ⟨j0, hj0, hmin, hP, heq⟩ := getNextAvailableKey_first_usable s now hc hex
  refine ⟨_, _, heq, hP, ?_⟩
  intro t ht
  rw [usableKey, ht] at hP
  exact of_decide_eq_true hP

/-- C2 amended, witness at a clean two-key pool. -/
theorem cooldown_respected_witness :
    ∃ k' s', getNextAvailableKey twoKeyState 0 = .ok k' s' ∧
      usableKey twoKeyState 0 k' = true ∧
      ∀ t, twoKeyState.key_cooldowns k' = some t → t ≤ 0 :=
  cooldown_respected_when_usable_exists twoKeyState 0 (by decide)
    ⟨"a", by decide, by decide⟩

theorem keyAt_eq_get (s : ORState) (i : Nat) (h : i < nKeys s) :
    keyAt s i = s.api_keys.get ⟨i, h⟩ := by
  unfold keyAt
  rw [List.getD_eq_getElem _ _ h]
  rfl

/-- C3 counterexample: with two usable records and the cursor at index 0,
`get_active_api` returns the record `qwen_1` on two consecutive calls — the
cursor is set to the returned index, not one past it, so consecutive
selections repeat even though the pool has two usable records. -/
theorem get_active_api_repeats :
    Option.map APIEndpoint.name (getActiveApi svcPool 0 false).1 = some ("qwen_1") ∧
      Option.map APIEndpoint.name
          (getActiveApi (getActiveApi svcPool 0 false).2 0 false).1 = some ("qwen_1") ∧
      (isApiAvailable epA 0).1 = true ∧ (isApiAvailable epB 0).1 = true := by decide

/-- C3 amended: the no-repeat property holds for the OpenRouter manager's
success path (selection, then the rotation `chat_completion` performs after a
success): two consecutive successful selections return distinct keys whenever
at least two keys are usable; the enhanced manager's `get_active_api`
instead leaves its cursor at the returned index and can repeat. -/
theorem rotation_no_repeat (s : ORState) (now : Nat) (k1 k2 : String) (s1 s2 : ORState)
    (hc : s.current_key_index < nKeys s)
    (hnd : s.api_keys.Nodup)
    (hex2 : ∃ a ∈ s.api_keys, ∃ b ∈ s.api_keys,
      a ≠ b ∧ usableKey s now a = true ∧ usableKey s now b = true)
    (h1 : getNextAvailableKey s now = .ok k1 s1)
    (h2 : getNextAvailableKey (rotateKey s1) now = .ok k2 s2) :
    k1 ≠ k2 := by
  obtain ⟨a, ha, b, hb, hab, hua, hub⟩ := hex2
  have hn : 0 < nKeys s := by omega
  obtain ⟨j0, hj0n, hmin0, hP0, heq0⟩ :=
    getNextAvailableKey_first_usable s now hc ⟨a, ha, hua⟩
  rw [heq0] at h1
  injection h1 with hk1 hs1
  set i1 := (s.current_key_index + j0) % nKeys s with hi1def
  have hi1n : i1 < nKeys s := by rw [hi1def]; exact Nat.mod_lt _ hn
  subst hk1
  subst hs1
  have hkeys1 : (rotateKey (postSelect s i1)).api_keys = s.api_keys := by
    rw [api_keys_rotate, api_keys_postSelect]
  have hn2 : nKeys (rotateKey (postSelect s i1)) = nKeys s := by
    unfold nKeys
    rw [hkeys1]
  have hcur2 : (rotateKey (postSelect s i1)).current_key_index = (i1 + 1) % nKeys s := by
    simp [rotateKey, cursor_postSelect, nKeys_postSelect]
  have hc2 : (rotateKey (postSelect s i1)).current_key_index
      < nKeys (rotateKey (postSelect s i1)) := by
    rw [hcur2, hn2]
    exact Nat.mod_lt _ hn
  have hw : ∃ w, w ∈ s.api_keys ∧ w ≠ keyAt s i1 ∧ usableKey s now w = true := by
    by_cases hak : a = keyAt s i1
    · refine ⟨b, hb, ?_, hub⟩
      intro hbk
      exact hab (hak.trans hbk.symm)
    · exact ⟨a, ha, hak, hua⟩
  obtain ⟨w, hwmem, hwne, hwus⟩ := hw
  have hwus2 : usableKey (rotateKey (postSelect s i1)) now w = true := by
    rw [usable_rotate, usable_postSelect_ne s now i1 w hwne]
    exact hwus
  have hwmem2 : w ∈ (rotateKey (postSelect s i1)).api_keys := by
    rw [hkeys1]
    exact hwmem
  obtain ⟨j1, hj1n, hmin1, hP1, heq1⟩ :=
    getNextAvailableKey_first_usable (rotateKey (postSelect s i1)) now hc2 ⟨w, hwmem2, hwus2⟩
  rw [heq1] at h2
  injection h2 with hk2 hs2
  intro hkk
  have hkey2' : ∀ j : Nat, keyAt (rotateKey (postSelect s i1)) j = keyAt s j := by
    intro j
    rw [keyAt_rotate, keyAt_postSelect]
  have hidxval : ((rotateKey (postSelect s i1)).current_key_index + j1)
      % nKeys (rotateKey (postSelect s i1)) = (i1 + 1 + j1) % nKeys s := by
    rw [hcur2, hn2, Nat.mod_add_mod]
  have hkeq : keyAt s i1 = keyAt s ((i1 + 1 + j1) % nKeys s) := by
    rw [hkk, ← hk2, hkey2', hidxval]
  have hidx2n : (i1 + 1 + j1) % nKeys s < nKeys s := Nat.mod_lt _ hn
  have hieq : i1 = (i1 + 1 + j1) % nKeys s := by
    have e1 : s.api_keys.get ⟨i1, hi1n⟩
        = s.api_keys.get ⟨(i1 + 1 + j1) % nKeys s, hidx2n⟩ := by
      rw [← keyAt_eq_get s i1 hi1n, ← keyAt_eq_get s _ hidx2n]
      exact hkeq
    have hfin := (List.Nodup.get_inj_iff hnd).1 e1
    exact congrArg Fin.val hfin
  have hj1n' : j1 < nKeys s := by rw [← hn2]; exact hj1n
  have hj1eq : j1 = nKeys s - 1 := mod_wrap_eq i1 (nKeys s) j1 hi1n hj1n' hieq.symm
  obtain ⟨⟨iw, hiw⟩, hiwget⟩ := List.mem_iff_get.1 hwmem
  have hiwn : iw < nKeys s := hiw
  have hiwkey : keyAt s iw = w := by
    rw [keyAt_eq_get s iw hiwn]
    exact hiwget
  have hiwne : iw ≠ i1 := by
    intro h
    apply hwne
    rw [← hiwkey, h]
  obtain ⟨j, hjlt, hjeq⟩ := mod_shift_hit i1 (nKeys s) iw hi1n hiwn hiwne
  have hminj := hmin1 j (by rw [hj1eq]; exact hjlt)
  have hidxj : ((rotateKey (postSelect s i1)).current_key_index + j)
      % nKeys (rotateKey (postSelect s i1)) = iw := by
    rw [hcur2, hn2, Nat.mod_add_mod, hjeq]
  rw [hidxj, hkey2', hiwkey] at hminj
  rw [hminj] at hwus2
  exact Bool.noConfusion hwus2

/-- C3 amended, witness: on a clean two-key pool, select, rotate, select
yields two distinct keys. -/
theorem rotation_no_repeat_witness : ("a" : String) ≠ "b" :=
  rotation_no_repeat twoKeyState 0 ("a") ("b") twoKeyState (rotateKey twoKeyState)
    (by decide) (by decide)
    ⟨"a", by decide, "b", by decide, by decide, by decide, by decide⟩
    rfl rfl

/-- Failure outcomes that the retry loop of `chat_completion` does not treat
as call-aborting: everything except an `APIStatusError` with code 402. -/
def nonFatalOutcome : CallOutcome → Prop
  | .success => False
  | .statusError code _ => code ≠ 402
  | .otherError _ => True

instance : DecidablePred nonFatalOutcome := fun o =>
  match o with
  | .success => isFalse fun h => h
  | .statusError code _ => inferInstanceAs (Decidable (code ≠ 402))
  | .otherError _ => isTrue trivial

theorem api_keys_handleApiError (s : ORState) (key errMsg : String) (now : Nat) :
    (handleApiError s key errMsg now).api_keys = s.api_keys := by
  cases h : classifyError errMsg <;> simp [handleApiError, h]

theorem api_keys_touchKey (s : ORState) (key : String) (now : Nat) :
    (touchKey s key now).api_keys = s.api_keys := rfl

/-- One retry-loop step on a non-fatal failure: the loop records the error
against the selected key and continues with one attempt less. -/
theorem chatLoop_step (f : Nat → CallOutcome) (now maxR fuel : Nat)
    (last : Option CallOutcome) (prevKey : Option String) (s : ORState)
    (hinv : InvOR s) (hn : 0 < nKeys s)
    (hnf : nonFatalOutcome (f (maxR - (fuel + 1)))) :
    ∃ k s3, chatCompletionLoop f now maxR (fuel + 1) last prevKey s
        = chatCompletionLoop f now maxR fuel (some (f (maxR - (fuel + 1)))) (some k) s3 ∧
      InvOR s3 ∧ s3.api_keys = s.api_keys := by
  obtain ⟨k, s1, hsel, hinv1, hkeys1⟩ :=
    selectLoop_ok_of_inv now s.current_key_index (nKeys s) s hinv hn
  have hsel' : getNextAvailableKey s now = .ok k s1 := hsel
  cases hf : f (maxR - (fuel + 1)) with
  | success =>
    rw [hf] at hnf
    exact hnf.elim
  | statusError code msg =>
    rw [hf] at hnf
    refine ⟨k, handleApiError (touchKey s1 k now) k msg now, ?_, ?_, ?_⟩
    · simp only [chatCompletionLoop, hsel', hf]
      rw [if_neg hnf]
    · exact inv_handleApiError (inv_touchKey hinv1 k now) k msg now
    · rw [api_keys_handleApiError, api_keys_touchKey, hkeys1]
  | otherError msg =>
    refine ⟨k, handleApiError (touchKey s1 k now) k msg now, ?_, ?_, ?_⟩
    · simp only [chatCompletionLoop, hsel', hf]
    · exact inv_handleApiError (inv_touchKey hinv1 k now) k msg now
    · rw [api_keys_handleApiError, api_keys_touchKey, hkeys1]

/-- C8 amended: in the retry loop of `chat_completion`, only an
`APIStatusError` with status code 402 short-circuits — it is re-raised from
the first attempt no matter what later attempts would return; every other
failure outcome (including non-status errors whose message classifies as
payment-required) is retried until the maximum of 3 attempts, after which
the last attempt's error is raised. -/
theorem retry_classification (s : ORState) (now : Nat) (f : Nat → CallOutcome)
    (hinv : InvOR s) (hn : 0 < nKeys s) :
    (∀ msg, f 0 = .statusError 402 msg →
      ∃ s', chatCompletion f now s = .raised (.statusError 402 msg) s') ∧
      (nonFatalOutcome (f 0) → nonFatalOutcome (f 1) → nonFatalOutcome (f 2) →
        ∃ s', chatCompletion f now s = .raised (f 2) s') := by
  constructor
  · intro msg hf0
    obtain ⟨k, s1, hsel, _, _⟩ :=
      selectLoop_ok_of_inv now s.current_key_index (nKeys s) s hinv hn
    have hsel' : getNextAvailableKey s now = .ok k s1 := hsel
    have hf0' : f (3 - (2 + 1)) = .statusError 402 msg := hf0
    refine ⟨handleApiError (touchKey s1 k now) k msg now, ?_⟩
    show chatCompletionLoop f now 3 3 none none s = _
    simp only [chatCompletionLoop, hsel', hf0']
    simp
  · intro h0 h1 h2
    obtain ⟨k0, s3, hstep0, hinv3, hkeys3⟩ :=
      chatLoop_step f now 3 2 none none s hinv hn h0
    have hn3 : 0 < nKeys s3 := by unfold nKeys; rw [hkeys3]; exact hn
    obtain ⟨k1, s4, hstep1, hinv4, hkeys4⟩ :=
      chatLoop_step f now 3 1 (some (f 0)) (some k0) s3 hinv3 hn3 h1
    have hn4 : 0 < nKeys s4 := by unfold nKeys; rw [hkeys4]; exact hn3
    obtain ⟨k2, s5, hstep2, hinv5, hkeys5⟩ :=
      chatLoop_step f now 3 0 (some (f 1)) (some k1) s4 hinv4 hn4 h2
    refine ⟨s5, ?_⟩
    show chatCompletionLoop f now 3 3 none none s = _
    rw [hstep0, hstep1, hstep2]
    rfl

/-- The outcome sequence of the C8 counterexample: the first attempt fails
with a non-status error whose message contains "credit"; the second attempt
succeeds. -/
def creditOutcomes : Nat → CallOutcome
  | 0 => .otherError ("credit limit reached")
  | _ => .success

/-- C8 counterexample: the failure "credit limit reached" is classified
payment-required by `_handle_api_error`, yet because it is not an
`APIStatusError` with code 402 the loop retries instead of propagating: the
call succeeds on the second attempt (with the same key, re-obtained through
the min-errors fallback). -/
theorem payment_classified_error_retried :
    classifyError ("credit limit reached") = .payment ∧
      chatKey (chatCompletion creditOutcomes 0 oneKeyState) = some ("a") := by decide

/-- C8 amended, witness: a 402 status error raised on attempt one aborts even
though later attempts would succeed; a plain error is retried three times and
the last attempt's error surfaces. -/
theorem retry_classification_witness :
    (∃ s', chatCompletion (fun _ => .statusError 402 ("x")) 0 oneKeyState
        = .raised (.statusError 402 ("x")) s') ∧
      (∃ s', chatCompletion (fun _ => .otherError ("boom")) 0 oneKeyState
        = .raised (.otherError ("boom")) s') := by
  constructor
  · exact (retry_classification oneKeyState 0 _ (by decide) (by decide)).1 ("x") rfl
  · exact (retry_classification oneKeyState 0 _ (by decide) (by decide)).2
      trivial trivial trivial

end RotationSpec
